import Mathlib

/-!
Shallow embedding of the log tools of `src/tools/logs.py` (an MCP adapter
for a workflow-orchestration backend log HTTP API).

Each tool body is straight-line Python: validate `min_level`, build a query
parameter dict from the supplied optional arguments, issue one HTTP request
through the shared `httpx` client, raise on a non-success status, and return
the decoded body. We embed each tool as a pure function from its arguments
and a backend (a function from requests to responses) to an `Outcome`: the
list of requests actually issued together with the result
(`Except AdapterError`).

JSON values are modelled by a small inductive `Json`; a backend `Response`
carries the status code, the raw body text (`resp.text`, with `resp.content`
truthiness modelled as `text = ""`), and the decoded JSON view of the body
(`resp.json()`, `none` when the body does not parse as JSON).
-/

namespace LogsTools

/-- JSON values, as decoded from a backend response body. -/
inductive Json where
  | null : Json
  | bool (b : Bool) : Json
  | num (n : Int) : Json
  | str (s : String) : Json
  | arr (elems : List Json) : Json
  | obj (fields : List (String × Json)) : Json

/-- A query-parameter value: the Python dicts hold strings and ints. -/
inductive PVal where
  | s (v : String) : PVal
  | i (v : Int) : PVal
deriving DecidableEq, Repr

/-- HTTP method used by the adapter. -/
inductive Method where
  | get : Method
  | delete : Method
deriving DecidableEq, Repr

/-- An outbound HTTP request: method, path, and the query-parameter
mapping as an insertion-ordered association list (a Python dict). -/
structure Request where
  method : Method
  path : String
  params : List (String × PVal)
deriving DecidableEq, Repr

/-- A backend HTTP response: status code, raw body text (`resp.text`;
`resp.content` is empty iff `text = ""`), and the decoded JSON view of the
body (`resp.json()`; `none` when the body is not valid JSON). -/
structure Response where
  status : Nat
  text : String
  json : Option Json

/-- Errors an operation can raise: the local `ValueError` from `min_level`
validation, the `httpx.HTTPStatusError` from `raise_for_status`, and a JSON
decode failure from calling `resp.json()` on a body that is not JSON. -/
inductive AdapterError where
  | validationError (msg : String) : AdapterError
  | httpError (status : Nat) (body : String) : AdapterError
  | jsonDecodeError : AdapterError
deriving DecidableEq, Repr

/-- The observable outcome of one tool invocation: the outbound requests it
issued, in order, and its result. -/
structure Outcome (α : Type) where
  requests : List Request
  result : Except AdapterError α

/-- `valid_levels = {"ERROR", "WARN", "INFO", "DEBUG", "TRACE"}`. -/
def valid_levels : List String := ["ERROR", "WARN", "INFO", "DEBUG", "TRACE"]

/-- Code-point lexicographic order on character lists: Python string `<=`. -/
def strLeChars : List Char → List Char → Bool
  | [], _ => true
  | _ :: _, [] => false
  | x :: xs, y :: ys =>
    if x.toNat < y.toNat then true
    else if y.toNat < x.toNat then false
    else strLeChars xs ys

/-- Code-point lexicographic order on strings: Python string `<=`. -/
def strLe (a b : String) : Bool :=
  strLeChars a.data b.data

/-- Python `sorted`: stable lexicographic insertion sort over strings. -/
def insertSorted (x : String) : List String → List String
  | [] => [x]
  | y :: ys => if strLe x y then x :: y :: ys else y :: insertSorted x ys

/-- Python `sorted(valid_levels)` for any string list. -/
def sortStrings (xs : List String) : List String :=
  xs.foldr insertSorted []

/-- The validation error message:
`f"Invalid min_level \x7bmin_level\x7d. Must be one of: \x7b..\x7d"` with the
valid levels sorted and comma-joined. -/
def invalidMinLevelMsg (v : String) : String :=
  "Invalid min_level \x27" ++ v ++ "\x27. Must be one of: " ++
    String.intercalate ", " (sortStrings valid_levels)

/-- The shared validation block
`if min_level and min_level not in valid_levels: raise ValueError(...)`:
returns the error message when it would raise, `none` otherwise. Python
truthiness makes `None` and `""` both skip the check. -/
def minLevelError (min_level : Option String) : Option String :=
  match min_level with
  | none => none
  | some s =>
    if s = "" then none
    else if valid_levels.contains s then none
    else some (invalidMinLevelMsg s)

/-- `if v: params[key] = v` for an optional string argument: the key is added
only when the value is supplied and truthy (non-empty). -/
def optStrParam (key : String) (v : Option String) : List (String × PVal) :=
  match v with
  | none => []
  | some s => if s = "" then [] else [(key, PVal.s s)]

/-- `if v is not None: params[key] = v` for an optional int argument: the key
is added whenever the value is supplied, including 0. -/
def optIntParam (key : String) (v : Option Int) : List (String × PVal) :=
  match v with
  | none => []
  | some n => [(key, PVal.i n)]

/-- The query-parameter dict built by `get_execution_logs`,
`download_execution_logs` and `delete_execution_logs`. -/
def execLogParams (min_level task_run_id task_id : Option String)
    (attempt : Option Int) : List (String × PVal) :=
  optStrParam "minLevel" min_level ++ optStrParam "taskRunId" task_run_id ++
    optStrParam "taskId" task_id ++ optIntParam "attempt" attempt

/-- The query-parameter dict built by `search_logs`: `page` and `size` are
always present, the six filters only when supplied and truthy. -/
def searchParams (query nsp flow_id min_level start_date end_date : Option String)
    (page size : Int) : List (String × PVal) :=
  [("page", PVal.i page), ("size", PVal.i size)] ++
    optStrParam "q" query ++ optStrParam "namespace" nsp ++
    optStrParam "flowId" flow_id ++ optStrParam "minLevel" min_level ++
    optStrParam "startDate" start_date ++ optStrParam "endDate" end_date

/-- Validation plus request construction for `get_execution_logs`:
`GET /logs/{execution_id}` with the exec-log parameter dict. -/
def get_execution_logs_request (execution_id : String)
    (min_level task_run_id task_id : Option String) (attempt : Option Int) :
    Except AdapterError Request :=
  match minLevelError min_level with
  | some msg => .error (.validationError msg)
  | none => .ok ⟨Method.get, "/logs/" ++ execution_id,
      execLogParams min_level task_run_id task_id attempt⟩

/-- Validation plus request construction for `download_execution_logs`:
`GET /logs/{execution_id}/download` with the exec-log parameter dict. -/
def download_execution_logs_request (execution_id : String)
    (min_level task_run_id task_id : Option String) (attempt : Option Int) :
    Except AdapterError Request :=
  match minLevelError min_level with
  | some msg => .error (.validationError msg)
  | none => .ok ⟨Method.get, "/logs/" ++ execution_id ++ "/download",
      execLogParams min_level task_run_id task_id attempt⟩

/-- Validation plus request construction for `search_logs`:
`GET /logs/search`; `page` defaults to 1 and `size` to 25. -/
def search_logs_request (query nsp flow_id min_level start_date end_date :
    Option String) (page : Int := 1) (size : Int := 25) :
    Except AdapterError Request :=
  match minLevelError min_level with
  | some msg => .error (.validationError msg)
  | none => .ok ⟨Method.get, "/logs/search",
      searchParams query nsp flow_id min_level start_date end_date page size⟩

/-- Validation plus request construction for `delete_execution_logs`:
`DELETE /logs/{execution_id}` with the exec-log parameter dict. -/
def delete_execution_logs_request (execution_id : String)
    (min_level task_run_id task_id : Option String) (attempt : Option Int) :
    Except AdapterError Request :=
  match minLevelError min_level with
  | some msg => .error (.validationError msg)
  | none => .ok ⟨Method.delete, "/logs/" ++ execution_id,
      execLogParams min_level task_run_id task_id attempt⟩

/-- Request construction for `delete_flow_logs` (no validation block):
`DELETE /logs/{namespace}/{flow_id}` with only an optional `triggerId`. -/
def delete_flow_logs_request (nsp flow_id : String) (trigger_id : Option String) :
    Except AdapterError Request :=
  .ok ⟨Method.delete, "/logs/" ++ nsp ++ "/" ++ flow_id,
    optStrParam "triggerId" trigger_id⟩

/-- Validation plus request construction for `follow_execution_logs`:
`GET /logs/{execution_id}/follow` with only an optional `minLevel`. -/
def follow_execution_logs_request (execution_id : String)
    (min_level : Option String) : Except AdapterError Request :=
  match minLevelError min_level with
  | some msg => .error (.validationError msg)
  | none => .ok ⟨Method.get, "/logs/" ++ execution_id ++ "/follow",
      optStrParam "minLevel" min_level⟩

/-- `resp.raise_for_status()`: httpx raises `HTTPStatusError` unless the
status code is a 2xx success code. -/
def raise_for_status (resp : Response) : Except AdapterError Unit :=
  if 200 ≤ resp.status ∧ resp.status < 300 then .ok ()
  else .error (.httpError resp.status resp.text)

/-- `resp.raise_for_status()` followed by `return resp.json()`. -/
def jsonResponse (resp : Response) : Except AdapterError Json :=
  match raise_for_status resp with
  | .error e => .error e
  | .ok _ =>
    match resp.json with
    | some j => .ok j
    | none => .error .jsonDecodeError

/-- `resp.raise_for_status()` followed by `return resp.text`. -/
def textResponse (resp : Response) : Except AdapterError String :=
  match raise_for_status resp with
  | .error e => .error e
  | .ok _ => .ok resp.text

/-- `resp.raise_for_status()` followed by
`return resp.json() if resp.content else <status deleted confirmation>`. -/
def deleteResponse (resp : Response) : Except AdapterError Json :=
  match raise_for_status resp with
  | .error e => .error e
  | .ok _ =>
    if resp.text = "" then .ok (Json.obj [("status", Json.str "deleted")])
    else
      match resp.json with
      | some j => .ok j
      | none => .error .jsonDecodeError

/-- One full invocation of `get_execution_logs` against a backend. -/
def get_execution_logs (execution_id : String)
    (min_level task_run_id task_id : Option String) (attempt : Option Int)
    (backend : Request → Response) : Outcome Json :=
  match get_execution_logs_request execution_id min_level task_run_id task_id attempt with
  | .error e => ⟨[], .error e⟩
  | .ok req => ⟨[req], jsonResponse (backend req)⟩

/-- One full invocation of `download_execution_logs` against a backend. -/
def download_execution_logs (execution_id : String)
    (min_level task_run_id task_id : Option String) (attempt : Option Int)
    (backend : Request → Response) : Outcome String :=
  match download_execution_logs_request execution_id min_level task_run_id task_id attempt with
  | .error e => ⟨[], .error e⟩
  | .ok req => ⟨[req], textResponse (backend req)⟩

/-- One full invocation of `search_logs` against a backend. -/
def search_logs (query nsp flow_id min_level start_date end_date : Option String)
    (page : Int := 1) (size : Int := 25) (backend : Request → Response) :
    Outcome Json :=
  match search_logs_request query nsp flow_id min_level start_date end_date page size with
  | .error e => ⟨[], .error e⟩
  | .ok req => ⟨[req], jsonResponse (backend req)⟩

/-- One full invocation of `delete_execution_logs` against a backend. -/
def delete_execution_logs (execution_id : String)
    (min_level task_run_id task_id : Option String) (attempt : Option Int)
    (backend : Request → Response) : Outcome Json :=
  match delete_execution_logs_request execution_id min_level task_run_id task_id attempt with
  | .error e => ⟨[], .error e⟩
  | .ok req => ⟨[req], deleteResponse (backend req)⟩

/-- One full invocation of `delete_flow_logs` against a backend. -/
def delete_flow_logs (nsp flow_id : String) (trigger_id : Option String)
    (backend : Request → Response) : Outcome Json :=
  match delete_flow_logs_request nsp flow_id trigger_id with
  | .error e => ⟨[], .error e⟩
  | .ok req => ⟨[req], deleteResponse (backend req)⟩

/-- One full invocation of `follow_execution_logs` against a backend. -/
def follow_execution_logs (execution_id : String) (min_level : Option String)
    (backend : Request → Response) : Outcome String :=
  match follow_execution_logs_request execution_id min_level with
  | .error e => ⟨[], .error e⟩
  | .ok req => ⟨[req], textResponse (backend req)⟩

/-- The keys of a query-parameter mapping. -/
def keys (ps : List (String × PVal)) : List String :=
  ps.map Prod.fst

lemma invalidMinLevelMsg_eq (v : String) :
    invalidMinLevelMsg v =
      "Invalid min_level \x27" ++ v ++ "\x27. Must be one of: DEBUG, ERROR, INFO, TRACE, WARN" := by
  rw [invalidMinLevelMsg, String.append_assoc]
  exact congrArg (fun s => "Invalid min_level \x27" ++ v ++ s) rfl

lemma minLevelError_invalid (v : String) (h1 : v ≠ "") (h2 : v ∉ valid_levels) :
    minLevelError (some v) = some (invalidMinLevelMsg v) := by
  simp [minLevelError, h1, h2]

lemma minLevelError_valid (v : String) (h : v ∈ valid_levels) :
    minLevelError (some v) = none := by
  simp [minLevelError, h]

lemma keys_append (a b : List (String × PVal)) : keys (a ++ b) = keys a ++ keys b :=
  List.map_append Prod.fst a b

lemma mem_keys_optStrParam (k key : String) (v : Option String)
    (h : k ∈ keys (optStrParam key v)) : k = key := by
  cases v with
  | none => simp [optStrParam, keys] at h
  | some s =>
    by_cases hs : s = "" <;> simp [optStrParam, keys, hs] at h
    exact h

lemma mem_keys_optIntParam (k key : String) (v : Option Int)
    (h : k ∈ keys (optIntParam key v)) : k = key := by
  cases v with
  | none => simp [optIntParam, keys] at h
  | some n => simp [optIntParam, keys] at h; exact h

/-- C1, counterexample: the claim says that supplying any `min_level` value
that is not a member of the valid-level set causes a ValidationError before
any HTTP request. The empty string is not a member of the set, yet
`search_logs` with `min_level = ""` passes validation, issues its HTTP
request, and returns the backend result. -/
theorem C1_empty_min_level_not_rejected :
    search_logs none none none (some "") none none 1 25
        (fun _ => ⟨200, "x", some (Json.obj [])⟩) =
      ⟨[⟨Method.get, "/logs/search", [("page", PVal.i 1), ("size", PVal.i 25)]⟩],
        Except.ok (Json.obj [])⟩ ∧
    "" ∉ valid_levels :=
  ⟨rfl, by decide⟩

/-- C1 (amended: restricted to non-empty values): supplying a non-empty
`min_level` outside the set ERROR, WARN, INFO, DEBUG, TRACE makes each of the
five level-accepting operations fail with a ValidationError whose message
contains the invalid value and the five valid levels sorted and comma-joined
(DEBUG, ERROR, INFO, TRACE, WARN), with no HTTP request issued. -/
theorem C1_invalid_min_level_rejected (v : String) (hne : v ≠ "")
    (hmem : v ∉ valid_levels) (eid : String) (tr ti : Option String)
    (att : Option Int) (q nsp fid sd ed : Option String) (pg sz : Int)
    (bkd : Request → Response) :
    get_execution_logs eid (some v) tr ti att bkd =
      ⟨[], .error (.validationError ("Invalid min_level \x27" ++ v ++
        "\x27. Must be one of: DEBUG, ERROR, INFO, TRACE, WARN"))⟩ ∧
    download_execution_logs eid (some v) tr ti att bkd =
      ⟨[], .error (.validationError ("Invalid min_level \x27" ++ v ++
        "\x27. Must be one of: DEBUG, ERROR, INFO, TRACE, WARN"))⟩ ∧
    search_logs q nsp fid (some v) sd ed pg sz bkd =
      ⟨[], .error (.validationError ("Invalid min_level \x27" ++ v ++
        "\x27. Must be one of: DEBUG, ERROR, INFO, TRACE, WARN"))⟩ ∧
    delete_execution_logs eid (some v) tr ti att bkd =
      ⟨[], .error (.validationError ("Invalid min_level \x27" ++ v ++
        "\x27. Must be one of: DEBUG, ERROR, INFO, TRACE, WARN"))⟩ ∧
    follow_execution_logs eid (some v) bkd =
      ⟨[], .error (.validationError ("Invalid min_level \x27" ++ v ++
        "\x27. Must be one of: DEBUG, ERROR, INFO, TRACE, WARN"))⟩ := by
  have hm : minLevelError (some v) =
      some ("Invalid min_level \x27" ++ v ++
        "\x27. Must be one of: DEBUG, ERROR, INFO, TRACE, WARN") := by
    rw [minLevelError_invalid v hne hmem, invalidMinLevelMsg_eq]
  refine ⟨?_, ?_, ?_, ?_, ?_⟩ <;>
    simp [get_execution_logs, get_execution_logs_request,
      download_execution_logs, download_execution_logs_request,
      search_logs, search_logs_request,
      delete_execution_logs, delete_execution_logs_request,
      follow_execution_logs, follow_execution_logs_request, hm]

/-- Witness for C1: the invalid value BOGUS is rejected by all five
level-accepting operations before any request is issued. -/
theorem C1_invalid_min_level_rejected_witness :
    get_execution_logs "e" (some "BOGUS") none none none
        (fun _ => ⟨200, "", none⟩) =
      ⟨[], .error (.validationError
        "Invalid min_level \x27BOGUS\x27. Must be one of: DEBUG, ERROR, INFO, TRACE, WARN")⟩ ∧
    search_logs none none none (some "BOGUS") none none 1 25
        (fun _ => ⟨200, "", none⟩) =
      ⟨[], .error (.validationError
        "Invalid min_level \x27BOGUS\x27. Must be one of: DEBUG, ERROR, INFO, TRACE, WARN")⟩ := by
  have h := C1_invalid_min_level_rejected "BOGUS" (by decide) (by decide)
    "e" none none none none none none none none 1 25 (fun _ => ⟨200, "", none⟩)
  exact ⟨h.1, h.2.2.1⟩

/-- C2: for every optional parameter of every operation, an absent (`none`)
value produces no corresponding key in the outbound query mapping; in
particular the three per-execution operations omit `attempt` when it is
absent and send `attempt = 0` when the caller supplies 0. The final
conjuncts tie the parameter-mapping functions to the requests the
operations actually construct. -/
theorem C2_optional_params_omitted (ml tr ti : Option String) (att : Option Int)
    (q nsp fid sd ed tid : Option String) (pg sz : Int) (eid ns0 fl0 : String) :
    "attempt" ∉ keys (execLogParams ml tr ti none) ∧
    ("attempt", PVal.i 0) ∈ execLogParams ml tr ti (some 0) ∧
    "minLevel" ∉ keys (execLogParams none tr ti att) ∧
    "taskRunId" ∉ keys (execLogParams ml none ti att) ∧
    "taskId" ∉ keys (execLogParams ml tr none att) ∧
    "q" ∉ keys (searchParams none nsp fid ml sd ed pg sz) ∧
    "namespace" ∉ keys (searchParams q none fid ml sd ed pg sz) ∧
    "flowId" ∉ keys (searchParams q nsp none ml sd ed pg sz) ∧
    "minLevel" ∉ keys (searchParams q nsp fid none sd ed pg sz) ∧
    "startDate" ∉ keys (searchParams q nsp fid ml none ed pg sz) ∧
    "endDate" ∉ keys (searchParams q nsp fid ml sd none pg sz) ∧
    keys (optStrParam "triggerId" none) = [] ∧
    (minLevelError ml = none →
      get_execution_logs_request eid ml tr ti att =
        .ok ⟨Method.get, "/logs/" ++ eid, execLogParams ml tr ti att⟩ ∧
      download_execution_logs_request eid ml tr ti att =
        .ok ⟨Method.get, "/logs/" ++ eid ++ "/download", execLogParams ml tr ti att⟩ ∧
      delete_execution_logs_request eid ml tr ti att =
        .ok ⟨Method.delete, "/logs/" ++ eid, execLogParams ml tr ti att⟩ ∧
      search_logs_request q nsp fid ml sd ed pg sz =
        .ok ⟨Method.get, "/logs/search", searchParams q nsp fid ml sd ed pg sz⟩ ∧
      follow_execution_logs_request eid ml =
        .ok ⟨Method.get, "/logs/" ++ eid ++ "/follow", optStrParam "minLevel" ml⟩) ∧
    delete_flow_logs_request ns0 fl0 tid =
      .ok ⟨Method.delete, "/logs/" ++ ns0 ++ "/" ++ fl0, optStrParam "triggerId" tid⟩ := by
  refine ⟨?_, ?_, ?_, ?_, ?_, ?_, ?_, ?_, ?_, ?_, ?_, rfl, ?_, rfl⟩
  · intro h
    simp only [execLogParams, optIntParam, List.append_nil, List.append_assoc, keys_append,
      List.mem_append] at h
    rcases h with h | h | h <;> exact absurd (mem_keys_optStrParam _ _ _ h) (by decide)
  · simp [execLogParams, optIntParam]
  · intro h
    simp only [execLogParams, optStrParam, List.nil_append, List.append_assoc, keys_append,
      List.mem_append] at h
    rcases h with h | h | h
    · exact absurd (mem_keys_optStrParam _ _ _ h) (by decide)
    · exact absurd (mem_keys_optStrParam _ _ _ h) (by decide)
    · exact absurd (mem_keys_optIntParam _ _ _ h) (by decide)
  · intro h
    simp only [execLogParams, optStrParam, List.nil_append, List.append_assoc, keys_append,
      List.mem_append] at h
    rcases h with h | h | h
    · exact absurd (mem_keys_optStrParam _ _ _ h) (by decide)
    · exact absurd (mem_keys_optStrParam _ _ _ h) (by decide)
    · exact absurd (mem_keys_optIntParam _ _ _ h) (by decide)
  · intro h
    simp only [execLogParams, optStrParam, List.nil_append, List.append_assoc, keys_append,
      List.mem_append] at h
    rcases h with h | h | h
    · exact absurd (mem_keys_optStrParam _ _ _ h) (by decide)
    · exact absurd (mem_keys_optStrParam _ _ _ h) (by decide)
    · exact absurd (mem_keys_optIntParam _ _ _ h) (by decide)
  · intro h
    simp only [searchParams, optStrParam, List.nil_append, List.append_nil,
      List.append_assoc, keys_append, List.mem_append] at h
    rcases h with h | h | h | h | h | h
    · simp [keys] at h
    all_goals exact absurd (mem_keys_optStrParam _ _ _ h) (by decide)
  · intro h
    simp only [searchParams, optStrParam, List.nil_append, List.append_nil,
      List.append_assoc, keys_append, List.mem_append] at h
    rcases h with h | h | h | h | h | h
    · simp [keys] at h
    all_goals exact absurd (mem_keys_optStrParam _ _ _ h) (by decide)
  · intro h
    simp only [searchParams, optStrParam, List.nil_append, List.append_nil,
      List.append_assoc, keys_append, List.mem_append] at h
    rcases h with h | h | h | h | h | h
    · simp [keys] at h
    all_goals exact absurd (mem_keys_optStrParam _ _ _ h) (by decide)
  · intro h
    simp only [searchParams, optStrParam, List.nil_append, List.append_nil,
      List.append_assoc, keys_append, List.mem_append] at h
    rcases h with h | h | h | h | h | h
    · simp [keys] at h
    all_goals exact absurd (mem_keys_optStrParam _ _ _ h) (by decide)
  · intro h
    simp only [searchParams, optStrParam, List.nil_append, List.append_nil,
      List.append_assoc, keys_append, List.mem_append] at h
    rcases h with h | h | h | h | h | h
    · simp [keys] at h
    all_goals exact absurd (mem_keys_optStrParam _ _ _ h) (by decide)
  · intro h
    simp only [searchParams, optStrParam, List.nil_append, List.append_nil,
      List.append_assoc, keys_append, List.mem_append] at h
    rcases h with h | h | h | h | h | h
    · simp [keys] at h
    all_goals exact absurd (mem_keys_optStrParam _ _ _ h) (by decide)
  · intro hml
    refine ⟨?_, ?_, ?_, ?_, ?_⟩ <;>
      simp [get_execution_logs_request, download_execution_logs_request,
        delete_execution_logs_request, search_logs_request,
        follow_execution_logs_request, hml]

/-- Witness for C2 at concrete inputs: `attempt` is omitted when absent,
`attempt = 0` is sent, and the request built for `get_execution_logs`
carries exactly the constructed parameter mapping. -/
theorem C2_optional_params_omitted_witness :
    "attempt" ∉ keys (execLogParams (some "INFO") (some "t") none none) ∧
    ("attempt", PVal.i 0) ∈ execLogParams (some "INFO") (some "t") none (some 0) ∧
    get_execution_logs_request "e1" (some "INFO") (some "t") none (some 0) =
      .ok ⟨Method.get, "/logs/e1", execLogParams (some "INFO") (some "t") none (some 0)⟩ := by
  obtain ⟨h1, h2, -, -, -, -, -, -, -, -, -, -, h13, -⟩ :=
    C2_optional_params_omitted (some "INFO") (some "t") none (some 0)
      none none none none none none 1 25 "e1" "n" "f"
  exact ⟨h1, h2, (h13 rfl).1⟩

/-- C3: the two delete operations, given a 2xx response with an empty body,
return exactly the confirmation object with field status = deleted; given a
2xx response with a non-empty body, they return the decoded JSON body. -/
theorem C3_delete_confirmation (s : Nat) (jj : Option Json) (t : String) (j : Json)
    (eid nsp fid : String) (ml tr ti : Option String) (att : Option Int)
    (tid : Option String) (hml : minLevelError ml = none)
    (h1 : 200 ≤ s) (h2 : s < 300) :
    (delete_execution_logs eid ml tr ti att (fun _ => ⟨s, "", jj⟩)).result =
      .ok (Json.obj [("status", Json.str "deleted")]) ∧
    (delete_flow_logs nsp fid tid (fun _ => ⟨s, "", jj⟩)).result =
      .ok (Json.obj [("status", Json.str "deleted")]) ∧
    (t ≠ "" →
      (delete_execution_logs eid ml tr ti att (fun _ => ⟨s, t, some j⟩)).result = .ok j) ∧
    (t ≠ "" →
      (delete_flow_logs nsp fid tid (fun _ => ⟨s, t, some j⟩)).result = .ok j) := by
  refine ⟨?_, ?_, fun ht => ?_, fun ht => ?_⟩ <;>
    simp [delete_execution_logs, delete_execution_logs_request, delete_flow_logs,
      delete_flow_logs_request, deleteResponse, raise_for_status, hml, h1, h2, *]

/-- Witness for C3: a 204 empty-body delete returns the synthesized
confirmation; a 200 non-empty-body delete returns the decoded body. -/
theorem C3_delete_confirmation_witness :
    (delete_execution_logs "e" none none none none (fun _ => ⟨204, "", none⟩)).result =
      .ok (Json.obj [("status", Json.str "deleted")]) ∧
    (delete_flow_logs "n" "f" none (fun _ => ⟨200, "x", some Json.null⟩)).result =
      .ok Json.null :=
  ⟨(C3_delete_confirmation 204 none "x" Json.null "e" "n" "f" none none none none none
      rfl (by decide) (by decide)).1,
   (C3_delete_confirmation 200 (some Json.null) "x" Json.null "e" "n" "f" none none none
      none none rfl (by decide) (by decide)).2.2.2 (by decide)⟩

/-- C4: whenever the backend responds with a non-2xx status, every operation
fails with an HttpError carrying that status code and the backend body,
uniformly in the status code, and returns no result. -/
theorem C4_non_success_raises (s : Nat) (t : String) (jj : Option Json)
    (eid nsp fid : String) (tr ti : Option String) (att : Option Int)
    (q sd ed tid : Option String) (pg sz : Int)
    (h : ¬ (200 ≤ s ∧ s < 300)) :
    (∀ resp : Response, ¬ (200 ≤ resp.status ∧ resp.status < 300) →
      raise_for_status resp = .error (.httpError resp.status resp.text)) ∧
    (get_execution_logs eid none tr ti att (fun _ => ⟨s, t, jj⟩)).result =
      .error (.httpError s t) ∧
    (download_execution_logs eid none tr ti att (fun _ => ⟨s, t, jj⟩)).result =
      .error (.httpError s t) ∧
    (search_logs q nsp fid none sd ed pg sz (fun _ => ⟨s, t, jj⟩)).result =
      .error (.httpError s t) ∧
    (delete_execution_logs eid none tr ti att (fun _ => ⟨s, t, jj⟩)).result =
      .error (.httpError s t) ∧
    (delete_flow_logs nsp fid tid (fun _ => ⟨s, t, jj⟩)).result =
      .error (.httpError s t) ∧
    (follow_execution_logs eid none (fun _ => ⟨s, t, jj⟩)).result =
      .error (.httpError s t) := by
  refine ⟨fun resp hr => by simp [raise_for_status, hr], ?_, ?_, ?_, ?_, ?_, ?_⟩ <;>
    simp [get_execution_logs, get_execution_logs_request, download_execution_logs,
      download_execution_logs_request, search_logs, search_logs_request,
      delete_execution_logs, delete_execution_logs_request, delete_flow_logs,
      delete_flow_logs_request, follow_execution_logs, follow_execution_logs_request,
      minLevelError, jsonResponse, textResponse, deleteResponse, raise_for_status, h]

/-- Witness for C4: a 404 and a 500 both surface as an HttpError with the
status and backend body. -/
theorem C4_non_success_raises_witness :
    (get_execution_logs "e" none none none none
        (fun _ => ⟨404, "not found", none⟩)).result =
      .error (.httpError 404 "not found") ∧
    (delete_flow_logs "n" "f" none (fun _ => ⟨500, "boom", none⟩)).result =
      .error (.httpError 500 "boom") :=
  ⟨(C4_non_success_raises 404 "not found" none "e" "n" "f" none none none none
      none none none 1 25 (by decide)).2.1,
   (C4_non_success_raises 500 "boom" none "e" "n" "f" none none none none
      none none none 1 25 (by decide)).2.2.2.2.2.1⟩

/-- C5: `get_execution_logs` with execution_id abc123 and min_level INFO
issues the single request GET /logs/abc123 with query mapping
minLevel = INFO, and on a 2xx response returns the decoded JSON body
unmodified, whatever JSON value the backend returned. -/
theorem C5_get_execution_logs_scenario (j : Json) (t : String) :
    get_execution_logs "abc123" (some "INFO") none none none
        (fun _ => ⟨200, t, some j⟩) =
      ⟨[⟨Method.get, "/logs/abc123", [("minLevel", PVal.s "INFO")]⟩],
        Except.ok j⟩ := rfl

/-- C6: every request built by `search_logs` carries the page and size keys,
and with no caller-supplied values the defaults are page = 1 and size = 25
with no other key sent. -/
theorem C6_search_page_size_always_sent (q nsp fid ml sd ed : Option String)
    (pg sz : Int) (req : Request)
    (h : search_logs_request q nsp fid ml sd ed pg sz = .ok req) :
    ("page", PVal.i pg) ∈ req.params ∧ ("size", PVal.i sz) ∈ req.params ∧
    search_logs_request none none none none none none =
      .ok ⟨Method.get, "/logs/search", [("page", PVal.i 1), ("size", PVal.i 25)]⟩ := by
  cases hml : minLevelError ml with
  | some msg =>
    rw [search_logs_request, hml] at h
    simp at h
  | none =>
    rw [search_logs_request, hml] at h
    obtain rfl := Except.ok.inj h
    exact ⟨by simp [searchParams], by simp [searchParams], rfl⟩

/-- Witness for C6: a concrete search request carries its page and size. -/
theorem C6_search_page_size_always_sent_witness :
    ("page", PVal.i 3) ∈
      [("page", PVal.i 3), ("size", PVal.i 50), ("q", PVal.s "err")] ∧
    ("size", PVal.i 50) ∈
      [("page", PVal.i 3), ("size", PVal.i 50), ("q", PVal.s "err")] := by
  have h := C6_search_page_size_always_sent (some "err") none none none none none 3 50
    ⟨Method.get, "/logs/search",
      [("page", PVal.i 3), ("size", PVal.i 50), ("q", PVal.s "err")]⟩ rfl
  exact ⟨h.1, h.2.1⟩

/-- C7, counterexample: the claim says an empty string for a required
parameter is rejected rather than resulting in an HTTP request. The code
performs no emptiness check: `get_execution_logs` with execution_id = ""
issues GET /logs/, and `delete_flow_logs` with empty namespace and flow_id
issues DELETE /logs//. -/
theorem C7_empty_required_not_rejected :
    (get_execution_logs "" none none none none (fun _ => ⟨200, "", none⟩)).requests =
      [⟨Method.get, "/logs/", []⟩] ∧
    (delete_flow_logs "" "" none (fun _ => ⟨200, "", none⟩)).requests =
      [⟨Method.delete, "/logs//", []⟩] :=
  ⟨rfl, rfl⟩

/-- C7 (amended): the required parameters must be supplied (they have no
default at the schema boundary), but their values are not validated for
non-emptiness: for every string, including the empty one, the operation
issues its HTTP request with the value interpolated into the path. -/
theorem C7_required_params_not_validated (eid nsp fid : String)
    (bkd : Request → Response) :
    (get_execution_logs eid none none none none bkd).requests =
      [⟨Method.get, "/logs/" ++ eid, []⟩] ∧
    (download_execution_logs eid none none none none bkd).requests =
      [⟨Method.get, "/logs/" ++ eid ++ "/download", []⟩] ∧
    (delete_execution_logs eid none none none none bkd).requests =
      [⟨Method.delete, "/logs/" ++ eid, []⟩] ∧
    (follow_execution_logs eid none bkd).requests =
      [⟨Method.get, "/logs/" ++ eid ++ "/follow", []⟩] ∧
    (delete_flow_logs nsp fid none bkd).requests =
      [⟨Method.delete, "/logs/" ++ nsp ++ "/" ++ fid, []⟩] := by
  refine ⟨?_, ?_, ?_, ?_, ?_⟩ <;> rfl

/-- C8: an invocation that passes validation issues exactly one outbound
HTTP request, and an invocation that fails validation issues zero;
`delete_flow_logs` has no validation and always issues exactly one. -/
theorem C8_exactly_one_request (eid nsp fid : String) (ml tr ti : Option String)
    (att : Option Int) (q sd ed tid : Option String) (pg sz : Int)
    (bkd : Request → Response) :
    (get_execution_logs eid ml tr ti att bkd).requests.length =
      (if minLevelError ml = none then 1 else 0) ∧
    (download_execution_logs eid ml tr ti att bkd).requests.length =
      (if minLevelError ml = none then 1 else 0) ∧
    (search_logs q nsp fid ml sd ed pg sz bkd).requests.length =
      (if minLevelError ml = none then 1 else 0) ∧
    (delete_execution_logs eid ml tr ti att bkd).requests.length =
      (if minLevelError ml = none then 1 else 0) ∧
    (delete_flow_logs nsp fid tid bkd).requests.length = 1 ∧
    (follow_execution_logs eid ml bkd).requests.length =
      (if minLevelError ml = none then 1 else 0) := by
  cases hml : minLevelError ml <;>
    simp [get_execution_logs, get_execution_logs_request, download_execution_logs,
      download_execution_logs_request, search_logs, search_logs_request,
      delete_execution_logs, delete_execution_logs_request, delete_flow_logs,
      delete_flow_logs_request, follow_execution_logs, follow_execution_logs_request,
      hml]

/-- C9: for every optional string parameter of every operation, supplying
the empty string behaves exactly as supplying nothing: the whole outcome
(requests issued and result) is identical. -/
theorem C9_empty_string_equals_absent (eid ns0 fl0 : String)
    (ml tr ti : Option String) (att : Option Int)
    (q nsp fid sd ed : Option String) (pg sz : Int)
    (bkd : Request → Response) :
    get_execution_logs eid (some "") tr ti att bkd =
      get_execution_logs eid none tr ti att bkd ∧
    get_execution_logs eid ml (some "") ti att bkd =
      get_execution_logs eid ml none ti att bkd ∧
    get_execution_logs eid ml tr (some "") att bkd =
      get_execution_logs eid ml tr none att bkd ∧
    download_execution_logs eid (some "") tr ti att bkd =
      download_execution_logs eid none tr ti att bkd ∧
    download_execution_logs eid ml (some "") ti att bkd =
      download_execution_logs eid ml none ti att bkd ∧
    download_execution_logs eid ml tr (some "") att bkd =
      download_execution_logs eid ml tr none att bkd ∧
    delete_execution_logs eid (some "") tr ti att bkd =
      delete_execution_logs eid none tr ti att bkd ∧
    delete_execution_logs eid ml (some "") ti att bkd =
      delete_execution_logs eid ml none ti att bkd ∧
    delete_execution_logs eid ml tr (some "") att bkd =
      delete_execution_logs eid ml tr none att bkd ∧
    search_logs (some "") nsp fid ml sd ed pg sz bkd =
      search_logs none nsp fid ml sd ed pg sz bkd ∧
    search_logs q (some "") fid ml sd ed pg sz bkd =
      search_logs q none fid ml sd ed pg sz bkd ∧
    search_logs q nsp (some "") ml sd ed pg sz bkd =
      search_logs q nsp none ml sd ed pg sz bkd ∧
    search_logs q nsp fid (some "") sd ed pg sz bkd =
      search_logs q nsp fid none sd ed pg sz bkd ∧
    search_logs q nsp fid ml (some "") ed pg sz bkd =
      search_logs q nsp fid ml none ed pg sz bkd ∧
    search_logs q nsp fid ml sd (some "") pg sz bkd =
      search_logs q nsp fid ml sd none pg sz bkd ∧
    delete_flow_logs ns0 fl0 (some "") bkd = delete_flow_logs ns0 fl0 none bkd ∧
    follow_execution_logs eid (some "") bkd = follow_execution_logs eid none bkd := by
  refine ⟨?_, ?_, ?_, ?_, ?_, ?_, ?_, ?_, ?_, ?_, ?_, ?_, ?_, ?_, ?_, ?_, ?_⟩ <;> rfl

/-- C10: every operation is deterministic in its arguments and the backend
behavior: backends that agree on every request produce identical outcomes
(identical requests issued and identical results or errors). -/
theorem C10_deterministic (eid ns0 fl0 : String) (ml tr ti : Option String)
    (att : Option Int) (q nsp fid sd ed tid : Option String) (pg sz : Int)
    (b1 b2 : Request → Response) (h : ∀ r, b1 r = b2 r) :
    get_execution_logs eid ml tr ti att b1 = get_execution_logs eid ml tr ti att b2 ∧
    download_execution_logs eid ml tr ti att b1 =
      download_execution_logs eid ml tr ti att b2 ∧
    search_logs q nsp fid ml sd ed pg sz b1 = search_logs q nsp fid ml sd ed pg sz b2 ∧
    delete_execution_logs eid ml tr ti att b1 =
      delete_execution_logs eid ml tr ti att b2 ∧
    delete_flow_logs ns0 fl0 tid b1 = delete_flow_logs ns0 fl0 tid b2 ∧
    follow_execution_logs eid ml b1 = follow_execution_logs eid ml b2 := by
  have hb : b1 = b2 := funext h
  subst hb
  exact ⟨rfl, rfl, rfl, rfl, rfl, rfl⟩

/-- Witness for C10 at a concrete input and two syntactically distinct but
pointwise-equal backends. -/
theorem C10_deterministic_witness :
    get_execution_logs "e" none none none none (fun _ => ⟨200, "", none⟩) =
      get_execution_logs "e" none none none none (fun r => ⟨200, "", (fun _ => none) r⟩) :=
  (C10_deterministic "e" "n" "f" none none none none none none none none none none 1 25
    (fun _ => ⟨200, "", none⟩) (fun r => ⟨200, "", (fun _ => none) r⟩)
    (fun _ => rfl)).1

end LogsTools

